import Mathlib

/-!
Shallow embedding of the frame-capture-to-persistence core of
seedrobotics/NICO-software (nicovision), centred on
`src/api/src/nicovision/scripts/nicovision/ImageRecorder.py`.

The `ImageRecorder` class orchestrates a `VideoDevice` and an `ImageWriter`.
The sources of `VideoDevice` and `ImageWriter` are not part of the available
source tree, so their state and operations are modelled from the spec
(sections 4.1 "Device" and 4.2 "Writer Pool"); the `ImageRecorder` operations
are translated line by line from the Python source.

Frames are kept abstract (a type parameter); timestamps are strings
(`datetime.datetime.today().isoformat()` values).
-/

namespace NicoVision

/-- Modelled from the spec (§4.1 Device): the state of a `VideoDevice` as the
recorder observes it — the `_open` flag and the list of registered callbacks.
Callbacks are identified by numeric tokens; token `0` stands for the
recorder's own `_callback`, other tokens stand for foreign observers. -/
structure DeviceState where
  isOpen : Bool
  callbacks : List Nat
  deriving Repr, DecidableEq

/-- The token under which the recorder's `_callback` is registered. -/
def recorderCb : Nat := 0

/-- Modelled from the spec (§4.1): `open()` transitions Closed→Open,
idempotent when already Open. -/
def DeviceState.openDev (d : DeviceState) : DeviceState :=
  { d with isOpen := true }

/-- Modelled from the spec (§4.1): `close()` transitions Open→Closed,
idempotent when already Closed. -/
def DeviceState.closeDev (d : DeviceState) : DeviceState :=
  { d with isOpen := false }

/-- Modelled from the spec (§4.1): `add_callback(fn)` registers an observer. -/
def DeviceState.addCallback (d : DeviceState) (cb : Nat) : DeviceState :=
  { d with callbacks := d.callbacks ++ [cb] }

/-- Modelled from the spec (§4.1): `clean_callbacks()` removes all observers. -/
def DeviceState.cleanCallbacks (d : DeviceState) : DeviceState :=
  { d with callbacks := [] }

/-- Modelled from the spec (§4.2 Writer Pool): the state of an `ImageWriter` —
the `_open` flag, the `enable_write` gate, the FIFO queue of pending
(destination, frame) write jobs, and the jobs already flushed to storage. -/
structure WriterState (Frame : Type) where
  isOpen : Bool
  writeEnabled : Bool
  queue : List (String × Frame)
  written : List (String × Frame)
  deriving Repr, DecidableEq

/-- Modelled from the spec (§4.2): `open()` starts the workers, idempotent. -/
def WriterState.openPool {Frame : Type} (w : WriterState Frame) :
    WriterState Frame :=
  { w with isOpen := true }

/-- Modelled from the spec (§4.2): `write_image(destination, frame)` enqueues a
job while the pool is Open and the `enable_write` gate is on; otherwise the
call is a no-op and the frame is dropped. -/
def WriterState.writeImage {Frame : Type} (w : WriterState Frame)
    (dest : String) (frame : Frame) : WriterState Frame :=
  if w.isOpen && w.writeEnabled then
    { w with queue := w.queue ++ [(dest, frame)] }
  else
    w

/-- Modelled from the spec (§4.2): `enable_write(state)` sets the runtime
gate. -/
def WriterState.enableWrite {Frame : Type} (w : WriterState Frame)
    (state : Bool) : WriterState Frame :=
  { w with writeEnabled := state }

/-- Modelled from the spec (§4.2): `close()` drains the queue (every enqueued
job is flushed to storage) and stops the workers. -/
def WriterState.closePool {Frame : Type} (w : WriterState Frame) :
    WriterState Frame :=
  { w with isOpen := false, queue := [], written := w.written ++ w.queue }

/-- The state of an `ImageRecorder`: its `_device` (`none` when
`VideoDevice.from_device` returned `None`), its `_target` path template and
its `_image_writer`. -/
structure RecState (Frame : Type) where
  device : Option DeviceState
  target : String
  writer : WriterState Frame
  deriving Repr, DecidableEq

/-- Python `template.format(iso_time)` on the recorder's path templates:
substitutes the timestamp for the first `"\x7b\x7d"` placeholder of the
template (the recorder's templates contain at most one placeholder); a
template without a placeholder is returned unchanged. -/
def formatChars (ts : List Char) : List Char → List Char
  | [] => []
  | c₁ :: c₂ :: rest =>
      if c₁ = '{' ∧ c₂ = '}' then ts ++ rest
      else c₁ :: formatChars ts (c₂ :: rest)
  | [c] => [c]

/-- String-level wrapper for `formatChars`. -/
def formatTemplate (template ts : String) : String :=
  ⟨formatChars ts.data template.data⟩

/-- The default `custom_callback(self, iso_time, frame)` of `ImageRecorder`:
returns the frame unchanged (the hook exists so a subclass can modify the
frame before saving). -/
def custom_callback {Frame : Type} (_iso_time : String) (frame : Frame) :
    Frame :=
  frame

/-- Source `ImageRecorder._callback(self, rval, frame)`, parameterised by the
dynamically dispatched `custom_callback` hook (`custom`) and by the timestamp
`datetime.datetime.today().isoformat()` computed inside the callback (`now`).
On `rval` it transforms the frame with the hook, formats `_target` with the
timestamp and forwards the result to `ImageWriter.write_image`; otherwise it
does nothing. -/
def callbackWith {Frame : Type} (custom : String → Frame → Frame)
    (now : String) (rval : Bool) (frame : Frame) (s : RecState Frame) :
    RecState Frame :=
  if rval then
    { s with
      writer := s.writer.writeImage (formatTemplate s.target now) (custom now frame) }
  else
    s

/-- Source `ImageRecorder._callback` with the default (identity) hook. -/
def recCallback {Frame : Type} (now : String) (rval : Bool) (frame : Frame)
    (s : RecState Frame) : RecState Frame :=
  callbackWith custom_callback now rval frame s

/-- Delivery of one capture event `(iso_time, rval, frame)` to the recorder:
the device invokes every registered observer once, so the recorder's
`_callback` runs once per occurrence of its token in the callback list
(`cnt` times); foreign observers do not touch the recorder's state. -/
def deliverEvent {Frame : Type} (custom : String → Frame → Frame) (cnt : Nat)
    (ev : String × Bool × Frame) (s : RecState Frame) : RecState Frame :=
  (callbackWith custom ev.1 ev.2.1 ev.2.2)^[cnt] s

/-- Delivery of a list of capture events in capture order. -/
def deliverEvents {Frame : Type} (custom : String → Frame → Frame) (cnt : Nat)
    (evs : List (String × Bool × Frame)) (s : RecState Frame) :
    RecState Frame :=
  evs.foldl (fun s ev => deliverEvent custom cnt ev s) s

/-- Source `ImageRecorder.save_image_to(self, path)`, parameterised by the hook
`custom` and by the capture events `evs` the device delivers during the
`time.sleep(.1)` window. Translated from the source: set `_target := path`;
if `_device is None`, log and return `False`; otherwise open the device if
closed, register `_callback`, let the capture loop deliver the window's
frames to every registered observer, then close the device, clear all
callbacks and return `True`. -/
def save_image_to {Frame : Type} (custom : String → Frame → Frame)
    (path : String) (evs : List (String × Bool × Frame))
    (s : RecState Frame) : Bool × RecState Frame :=
  let s := { s with target := path }
  match s.device with
  | none => (false, s)
  | some d =>
      let d := if !d.isOpen then d.openDev else d
      let d := d.addCallback recorderCb
      let s₁ : RecState Frame := { s with device := some d }
      let s₂ := deliverEvents custom (d.callbacks.count recorderCb) evs s₁
      match s₂.device with
      | none => (true, s₂)
      | some d₂ =>
          (true, { s₂ with device := some (d₂.closeDev.cleanCallbacks) })

/-- Model of `os.path.abspath(path)` for the relative paths the recorder
produces: prefix the current working directory. -/
def abspath (cwd path : String) : String :=
  cwd ++ "/" ++ path

/-- Source `ImageRecorder.save_one_image(self)`: builds the path
`'picture-' + isoformat + '.png'` from the current time `now` and returns its
absolute form when `save_image_to` reports success, the empty string
otherwise. -/
def save_one_image {Frame : Type} (now cwd : String)
    (evs : List (String × Bool × Frame)) (s : RecState Frame) :
    String × RecState Frame :=
  let path := "picture-" ++ now ++ ".png"
  let r := save_image_to custom_callback path evs s
  (if r.1 then abspath cwd path else "", r.2)

/-- Source `ImageRecorder.start_recording(self, path)`: sets `_target`, opens the
device if it is closed, opens the writer pool if it is closed, registers
`_callback`. Returns `none` when `_device` is `None` (the Python code
dereferences `self._device._open` unguarded, raising `AttributeError`). -/
def start_recording {Frame : Type} (path : String) (s : RecState Frame) :
    Option (RecState Frame) :=
  match s.device with
  | none => none
  | some d =>
      let d := if !d.isOpen then d.openDev else d
      let w := if !s.writer.isOpen then s.writer.openPool else s.writer
      let d := d.addCallback recorderCb
      some { s with target := path, device := some d, writer := w }

/-- The side-effecting steps `start_recording` can perform, in order. -/
inductive RecEvent where
  | openDevice
  | openWriterPool
  | addCallback
  deriving Repr, DecidableEq

/-- The sequence of side-effecting steps `start_recording` performs, read off
the source line by line: `self._device.open()` when the device is closed,
then `self._image_writer.open()` when the pool is closed, then
`self._device.add_callback(self._callback)`. -/
def start_recording_events {Frame : Type} (s : RecState Frame) :
    List RecEvent :=
  match s.device with
  | none => []
  | some d =>
      (if !d.isOpen then [RecEvent.openDevice] else []) ++
      (if !s.writer.isOpen then [RecEvent.openWriterPool] else []) ++
      [RecEvent.addCallback]

/-- Source `ImageRecorder.wait_for_writer(self)`: closes the writer pool (blocking
drain). -/
def wait_for_writer {Frame : Type} (s : RecState Frame) : RecState Frame :=
  { s with writer := s.writer.closePool }

/-- Source `ImageRecorder.stop_recording(self, wait_for_writer)`: closes the device,
clears its callbacks and, when the flag is set, calls `wait_for_writer`.
Returns `none` when `_device` is `None` (unguarded dereference in the
source). -/
def stop_recording {Frame : Type} (wait : Bool) (s : RecState Frame) :
    Option (RecState Frame) :=
  match s.device with
  | none => none
  | some d =>
      let s' : RecState Frame :=
        { s with device := some (d.closeDev.cleanCallbacks) }
      some (if wait then wait_for_writer s' else s')

/-- A freshly constructed recorder whose `VideoDevice.from_device` succeeded:
device closed with no callbacks, writer pool not yet opened, empty queue.
The initial `_target` is `'picture-\x7b\x7d.png'` as set by `__init__`. -/
def freshRec : RecState Nat :=
  { device := some { isOpen := false, callbacks := [] }
    target := "picture-\x7b\x7d.png"
    writer :=
      { isOpen := false, writeEnabled := true, queue := [], written := [] } }

/-- A freshly constructed recorder whose `VideoDevice.from_device` returned
`None` (unavailable device). -/
def freshRecNoDevice : RecState Nat :=
  { device := none
    target := "picture-\x7b\x7d.png"
    writer :=
      { isOpen := false, writeEnabled := true, queue := [], written := [] } }


/-- A recorder in continuous-recording state: device open with the recorder
callback registered, writer pool open, writes enabled, nothing queued yet. -/
def openRec : RecState Nat :=
  { device := some { isOpen := true, callbacks := [recorderCb] }
    target := "picture-\x7b\x7d.png"
    writer :=
      { isOpen := true, writeEnabled := true, queue := [], written := [] } }

/-- A recorder mid-recording with a foreign observer also registered on the
device and a pending job in the writer queue. -/
def busyRec : RecState Nat :=
  { device := some { isOpen := true, callbacks := [recorderCb, 7] }
    target := "shot-\x7b\x7d.png"
    writer :=
      { isOpen := true, writeEnabled := true, queue := [("old.png", 9)]
        written := [] } }

/-! ### Helper lemmas -/

/-- A quantity computed by `g` that one application of `f` preserves is
preserved by any number of iterations of `f`. -/
theorem iterate_map_eq {α β : Type} (f : α → α) (g : α → β)
    (h : ∀ a, g (f a) = g a) : ∀ (n : Nat) (a : α), g (f^[n] a) = g a := by
  intro n
  induction n with
  | zero => intro a; rfl
  | succ n ih =>
      intro a
      rw [Function.iterate_succ_apply, ih, h]

/-- The callback never touches `_device`. -/
theorem callbackWith_device {Frame : Type} (custom : String → Frame → Frame)
    (now : String) (rval : Bool) (frame : Frame) (s : RecState Frame) :
    (callbackWith custom now rval frame s).device = s.device := by
  unfold callbackWith
  split <;> rfl

/-- The callback never touches `_target`. -/
theorem callbackWith_target {Frame : Type} (custom : String → Frame → Frame)
    (now : String) (rval : Bool) (frame : Frame) (s : RecState Frame) :
    (callbackWith custom now rval frame s).target = s.target := by
  unfold callbackWith
  split <;> rfl

/-- The callback never opens or closes the writer pool. -/
theorem callbackWith_isOpen {Frame : Type} (custom : String → Frame → Frame)
    (now : String) (rval : Bool) (frame : Frame) (s : RecState Frame) :
    (callbackWith custom now rval frame s).writer.isOpen =
      s.writer.isOpen := by
  unfold callbackWith WriterState.writeImage
  split <;> try rfl
  split <;> rfl

/-- The callback never flips the `enable_write` gate. -/
theorem callbackWith_writeEnabled {Frame : Type}
    (custom : String → Frame → Frame) (now : String) (rval : Bool)
    (frame : Frame) (s : RecState Frame) :
    (callbackWith custom now rval frame s).writer.writeEnabled =
      s.writer.writeEnabled := by
  unfold callbackWith WriterState.writeImage
  split <;> try rfl
  split <;> rfl

/-- The callback never flushes anything to storage itself. -/
theorem callbackWith_written {Frame : Type}
    (custom : String → Frame → Frame) (now : String) (rval : Bool)
    (frame : Frame) (s : RecState Frame) :
    (callbackWith custom now rval frame s).writer.written =
      s.writer.written := by
  unfold callbackWith WriterState.writeImage
  split <;> try rfl
  split <;> rfl

/-- On a closed writer pool the callback is a complete no-op. -/
theorem callbackWith_closed {Frame : Type} (custom : String → Frame → Frame)
    (now : String) (rval : Bool) (frame : Frame) (s : RecState Frame)
    (h : s.writer.isOpen = false) :
    callbackWith custom now rval frame s = s := by
  unfold callbackWith WriterState.writeImage
  split <;> try rfl
  rw [h]
  simp

/-- On a closed writer pool the whole delivery window is a no-op. -/
theorem deliverEvents_closed {Frame : Type} (custom : String → Frame → Frame)
    (cnt : Nat) (evs : List (String × Bool × Frame)) (s : RecState Frame)
    (h : s.writer.isOpen = false) :
    deliverEvents custom cnt evs s = s := by
  induction evs with
  | nil => rfl
  | cons ev evs ih =>
      unfold deliverEvents
      simp only [List.foldl_cons]
      have hev : deliverEvent custom cnt ev s = s :=
        Function.iterate_fixed (callbackWith_closed custom ev.1 ev.2.1 ev.2.2 s h) cnt
      rw [hev]
      exact ih

/-- Delivering events never touches `_device`. -/
theorem deliverEvents_device {Frame : Type} (custom : String → Frame → Frame)
    (cnt : Nat) (evs : List (String × Bool × Frame)) (s : RecState Frame) :
    (deliverEvents custom cnt evs s).device = s.device := by
  induction evs generalizing s with
  | nil => rfl
  | cons ev evs ih =>
      unfold deliverEvents
      simp only [List.foldl_cons]
      show (deliverEvents custom cnt evs (deliverEvent custom cnt ev s)).device = s.device
      rw [ih]
      exact iterate_map_eq _ _ (fun a => callbackWith_device custom ev.1 ev.2.1 ev.2.2 a) cnt s

/-- Delivering events never opens or closes the writer pool. -/
theorem deliverEvents_isOpen {Frame : Type} (custom : String → Frame → Frame)
    (cnt : Nat) (evs : List (String × Bool × Frame)) (s : RecState Frame) :
    (deliverEvents custom cnt evs s).writer.isOpen = s.writer.isOpen := by
  induction evs generalizing s with
  | nil => rfl
  | cons ev evs ih =>
      unfold deliverEvents
      simp only [List.foldl_cons]
      show (deliverEvents custom cnt evs (deliverEvent custom cnt ev s)).writer.isOpen = s.writer.isOpen
      rw [ih]
      exact iterate_map_eq (callbackWith custom ev.1 ev.2.1 ev.2.2)
        (fun t => t.writer.isOpen)
        (fun a => callbackWith_isOpen custom ev.1 ev.2.1 ev.2.2 a) cnt s

/-- Delivering events never flushes anything to storage. -/
theorem deliverEvents_written {Frame : Type} (custom : String → Frame → Frame)
    (cnt : Nat) (evs : List (String × Bool × Frame)) (s : RecState Frame) :
    (deliverEvents custom cnt evs s).writer.written = s.writer.written := by
  induction evs generalizing s with
  | nil => rfl
  | cons ev evs ih =>
      unfold deliverEvents
      simp only [List.foldl_cons]
      show (deliverEvents custom cnt evs (deliverEvent custom cnt ev s)).writer.written = s.writer.written
      rw [ih]
      exact iterate_map_eq (callbackWith custom ev.1 ev.2.1 ev.2.2)
        (fun t => t.writer.written)
        (fun a => callbackWith_written custom ev.1 ev.2.1 ev.2.2 a) cnt s

/-- Result of `save_image_to` when `_device` is `None`: it records the target
and reports failure without touching device or writer. -/
theorem save_image_to_none {Frame : Type} (custom : String → Frame → Frame)
    (path : String) (evs : List (String × Bool × Frame)) (s : RecState Frame)
    (hd : s.device = none) :
    save_image_to custom path evs s = (false, { s with target := path }) := by
  unfold save_image_to
  simp only [hd]

/-- Full description of `save_image_to` when the device exists: the call
reports success, and the final state is the delivered state with the device
closed and all callbacks cleared. -/
theorem save_image_to_some {Frame : Type} (custom : String → Frame → Frame)
    (path : String) (evs : List (String × Bool × Frame)) (s : RecState Frame)
    (d : DeviceState) (hd : s.device = some d) :
    save_image_to custom path evs s =
      (true,
        { deliverEvents custom
            (((if !d.isOpen then d.openDev else d).addCallback recorderCb).callbacks.count
              recorderCb) evs
            { s with target := path,
                     device :=
                       some ((if !d.isOpen then d.openDev else d).addCallback recorderCb) } with
          device := some { isOpen := false, callbacks := [] } }) := by
  unfold save_image_to
  simp only [hd]
  rw [deliverEvents_device]
  simp [DeviceState.closeDev, DeviceState.cleanCallbacks]

/-- The success flag of `save_image_to` is exactly device availability. -/
theorem save_image_to_fst {Frame : Type} (custom : String → Frame → Frame)
    (path : String) (evs : List (String × Bool × Frame))
    (s : RecState Frame) :
    (save_image_to custom path evs s).1 = s.device.isSome := by
  cases hd : s.device with
  | none => rw [save_image_to_none custom path evs s hd]; simp
  | some d => rw [save_image_to_some custom path evs s d hd]; simp

/-- `save_image_to` never opens or closes the writer pool. -/
theorem save_image_to_writer_isOpen {Frame : Type}
    (custom : String → Frame → Frame) (path : String)
    (evs : List (String × Bool × Frame)) (s : RecState Frame) :
    ((save_image_to custom path evs s).2).writer.isOpen =
      s.writer.isOpen := by
  cases hd : s.device with
  | none => rw [save_image_to_none custom path evs s hd]
  | some d =>
      rw [save_image_to_some custom path evs s d hd]
      exact deliverEvents_isOpen custom _ evs _

/-- When the writer pool is closed, `save_image_to` leaves it untouched:
every forwarded frame is dropped by `write_image`, so no job is ever
enqueued and nothing reaches storage. -/
theorem save_image_to_writer_closed {Frame : Type}
    (custom : String → Frame → Frame) (path : String)
    (evs : List (String × Bool × Frame)) (s : RecState Frame)
    (h : s.writer.isOpen = false) :
    ((save_image_to custom path evs s).2).writer = s.writer := by
  cases hd : s.device with
  | none => rw [save_image_to_none custom path evs s hd]
  | some d =>
      rw [save_image_to_some custom path evs s d hd]
      have hcl := deliverEvents_closed custom
        (((if !d.isOpen then d.openDev else d).addCallback recorderCb).callbacks.count
          recorderCb) evs
        { s with target := path,
                 device :=
                   some ((if !d.isOpen then d.openDev else d).addCallback recorderCb) } h
      simp only [hcl]

/-! ### Claim theorems -/

/-- C8: the default transform hook is the identity — for every timestamp and
every frame, `custom_callback(iso_time, frame)` returns the frame unchanged,
so a recorder with no caller-supplied hook persists frames exactly as
captured. -/
theorem custom_callback_is_identity {Frame : Type} (iso_time : String)
    (frame : Frame) : custom_callback iso_time frame = frame :=
  rfl

/-- C3: the internal callback is a complete no-op on `success=false`; on
`success=true` it applies the transform hook to the frame, formats the
target template with the timestamp it computed, and forwards the transformed
frame under that path to the writer pool via `write_image`. -/
theorem callback_drops_failures_and_forwards_successes {Frame : Type}
    (custom : String → Frame → Frame) (now : String) (frame : Frame)
    (s : RecState Frame) :
    callbackWith custom now false frame s = s ∧
    callbackWith custom now true frame s =
      { s with
        writer :=
          s.writer.writeImage (formatTemplate s.target now)
            (custom now frame) } :=
  ⟨rfl, rfl⟩

/-- C10: `save_image_to` unconditionally closes the device and clears all of
its registered callbacks before returning, whatever state the device and its
callback list were in before the call. -/
theorem save_image_to_closes_device_and_clears_callbacks {Frame : Type}
    (custom : String → Frame → Frame) (path : String)
    (evs : List (String × Bool × Frame)) (s : RecState Frame)
    (d : DeviceState) (hd : s.device = some d) :
    ((save_image_to custom path evs s).2).device =
      some { isOpen := false, callbacks := [] } := by
  rw [save_image_to_some custom path evs s d hd]

/-- Witness for C10: invoking the single-shot capture on a recorder whose
device is already open with a foreign observer registered (an active
continuous recording) still closes the device and wipes every callback. -/
theorem save_image_to_closes_device_and_clears_callbacks_witness :
    busyRec.device =
      some { isOpen := true, callbacks := [recorderCb, 7] } ∧
    ((save_image_to custom_callback "single.png" [("t0", true, 3)]
        busyRec).2).device =
      some { isOpen := false, callbacks := [] } :=
  ⟨rfl,
    save_image_to_closes_device_and_clears_callbacks custom_callback
      "single.png" [("t0", true, 3)] busyRec
      { isOpen := true, callbacks := [recorderCb, 7] } rfl⟩

/-- C9: `save_image_to` returns `False` exactly when the device is `None`,
and in every other case returns `True`; it never opens the writer pool, and
when the pool was closed the writer state is completely untouched, so a
`True` return does not imply that any image was written. -/
theorem save_image_to_false_iff_no_device {Frame : Type}
    (custom : String → Frame → Frame) (path : String)
    (evs : List (String × Bool × Frame)) (s : RecState Frame) :
    ((save_image_to custom path evs s).1 = false ↔ s.device = none) ∧
    ((save_image_to custom path evs s).2).writer.isOpen = s.writer.isOpen ∧
    (s.writer.isOpen = false →
      ((save_image_to custom path evs s).2).writer = s.writer) := by
  refine ⟨?_, save_image_to_writer_isOpen custom path evs s,
    fun h => save_image_to_writer_closed custom path evs s h⟩
  rw [save_image_to_fst]
  cases s.device <;> simp

/-- Witness for C9: a fresh recorder has an available device and a closed
pool; `save_image_to` reports `True` while leaving the writer untouched. -/
theorem save_image_to_false_iff_no_device_witness :
    ((save_image_to custom_callback "w.png" [("t0", true, 5)]
        freshRec).1 = false ↔ freshRec.device = none) ∧
    ((save_image_to custom_callback "w.png" [("t0", true, 5)]
        freshRec).2).writer.isOpen = freshRec.writer.isOpen ∧
    (freshRec.writer.isOpen = false →
      ((save_image_to custom_callback "w.png" [("t0", true, 5)]
          freshRec).2).writer = freshRec.writer) :=
  save_image_to_false_iff_no_device custom_callback "w.png"
    [("t0", true, 5)] freshRec

/-- C2: `save_one_image` returns the absolute form of the path it chose when
the device is available and the empty string when the device is unavailable;
the unavailable case is an ordinary return value, not an exception. -/
theorem save_one_image_path_or_empty {Frame : Type} (now cwd : String)
    (evs : List (String × Bool × Frame)) (s : RecState Frame) :
    (save_one_image now cwd evs s).1 =
      if s.device.isSome then abspath cwd ("picture-" ++ now ++ ".png")
      else "" := by
  unfold save_one_image
  simp only [save_image_to_fst]

/-- C1: on any recorder whose writer pool has not been opened — which is the
state `save_one_image` runs in, since neither it nor `save_image_to` ever
opens the pool — the single-shot capture leaves the writer completely
untouched: however many frames the device delivers during the capture
window, no write job is enqueued and nothing is flushed to storage, so the
call persists zero files rather than exactly one. -/
theorem save_one_image_persists_nothing {Frame : Type} (now cwd : String)
    (evs : List (String × Bool × Frame)) (s : RecState Frame)
    (h : s.writer.isOpen = false) :
    ((save_one_image now cwd evs s).2).writer = s.writer := by
  unfold save_one_image
  exact save_image_to_writer_closed custom_callback _ evs s h

/-- Witness for C1: a fresh recorder with an available device receives two
good frames during the capture window; `save_one_image` still returns an
absolute path while its writer state — queue and storage both empty — is
unchanged, so no file was persisted. -/
theorem save_one_image_persists_nothing_witness :
    freshRec.writer.isOpen = false ∧
    (save_one_image "T" "/nico"
        [("T1", true, (1 : Nat)), ("T2", true, 2)] freshRec).1 =
      "/nico/picture-T.png" ∧
    ((save_one_image "T" "/nico"
        [("T1", true, (1 : Nat)), ("T2", true, 2)] freshRec).2).writer =
      freshRec.writer :=
  ⟨rfl, rfl,
    save_one_image_persists_nothing "T" "/nico"
      [("T1", true, (1 : Nat)), ("T2", true, 2)] freshRec rfl⟩

/-- C4: `stop_recording` always closes the device and clears its callbacks;
with `wait_for_writer=True` it additionally performs exactly the
`wait_for_writer` operation, which closes the pool and drains every queued
job to storage before returning. -/
theorem stop_recording_closes_device_and_optionally_drains {Frame : Type}
    (s : RecState Frame) (d : DeviceState) (hd : s.device = some d) :
    ∃ s', stop_recording false s = some s' ∧
      stop_recording true s = some (wait_for_writer s') ∧
      s'.device = some { isOpen := false, callbacks := [] } ∧
      s'.target = s.target ∧
      s'.writer = s.writer ∧
      wait_for_writer s' = { s' with writer := s'.writer.closePool } ∧
      (wait_for_writer s').writer.isOpen = false ∧
      (wait_for_writer s').writer.queue = [] ∧
      (wait_for_writer s').writer.written =
        s.writer.written ++ s.writer.queue := by
  refine ⟨{ s with device := some { isOpen := false, callbacks := [] } },
    ?_, ?_, rfl, rfl, rfl, rfl, rfl, rfl, rfl⟩
  · unfold stop_recording
    simp [hd, DeviceState.closeDev, DeviceState.cleanCallbacks]
  · unfold stop_recording
    simp [hd, DeviceState.closeDev, DeviceState.cleanCallbacks]

/-- Witness for C4: stopping a busy recording closes the device, wipes the
callbacks and, when waiting, drains the pending job to storage. -/
theorem stop_recording_closes_device_and_optionally_drains_witness :
    ∃ s', stop_recording false busyRec = some s' ∧
      stop_recording true busyRec = some (wait_for_writer s') ∧
      s'.device = some { isOpen := false, callbacks := [] } ∧
      s'.target = busyRec.target ∧
      s'.writer = busyRec.writer ∧
      wait_for_writer s' = { s' with writer := s'.writer.closePool } ∧
      (wait_for_writer s').writer.isOpen = false ∧
      (wait_for_writer s').writer.queue = [] ∧
      (wait_for_writer s').writer.written =
        busyRec.writer.written ++ busyRec.writer.queue :=
  stop_recording_closes_device_and_optionally_drains busyRec
    { isOpen := true, callbacks := [recorderCb, 7] } rfl

/-- C7: `stop_recording(wait_for_writer=False)` leaves the writer pool
untouched — still open, queue intact, nothing drained — while the device is
closed and its callbacks cleared. -/
theorem stop_recording_no_wait_leaves_pool_untouched {Frame : Type}
    (s : RecState Frame) (d : DeviceState) (hd : s.device = some d) :
    ∃ s', stop_recording false s = some s' ∧
      s'.writer = s.writer ∧
      s'.device = some { isOpen := false, callbacks := [] } := by
  refine ⟨{ s with device := some { isOpen := false, callbacks := [] } },
    ?_, rfl, rfl⟩
  unfold stop_recording
  simp [hd, DeviceState.closeDev, DeviceState.cleanCallbacks]

/-- Witness for C7: stopping a busy recording without waiting keeps the pool
open with its queued job still pending. -/
theorem stop_recording_no_wait_leaves_pool_untouched_witness :
    busyRec.writer.isOpen = true ∧
    busyRec.writer.queue = [("old.png", 9)] ∧
    (∃ s', stop_recording false busyRec = some s' ∧
      s'.writer = busyRec.writer ∧
      s'.device = some { isOpen := false, callbacks := [] }) :=
  ⟨rfl, rfl,
    stop_recording_no_wait_leaves_pool_untouched busyRec
      { isOpen := true, callbacks := [recorderCb, 7] } rfl⟩

/-- C5 counterexample: on a fresh recorder (device and pool both closed) the
side-effecting steps of `start_recording`, read off the source, open the
device first and the writer pool second — not the pool first as claimed. -/
theorem start_recording_order_counterexample :
    start_recording_events freshRec =
      [RecEvent.openDevice, RecEvent.openWriterPool, RecEvent.addCallback] ∧
    start_recording_events freshRec ≠
      [RecEvent.openWriterPool, RecEvent.openDevice, RecEvent.addCallback] := by
  constructor
  · rfl
  · decide

/-- C5 (amended): `start_recording(path)` opens the Device (only if it is not
already open), then opens the Writer Pool (only if it is not already open),
then registers the internal callback, in that order, leaving the device
open with the callback registered and the pool open. -/
theorem start_recording_opens_device_then_pool {Frame : Type} (path : String)
    (s : RecState Frame) (d : DeviceState) (hd : s.device = some d) :
    ∃ s', start_recording path s = some s' ∧
      s'.target = path ∧
      s'.device =
        some { isOpen := true, callbacks := d.callbacks ++ [recorderCb] } ∧
      s'.writer = { s.writer with isOpen := true } ∧
      start_recording_events s =
        (if d.isOpen then [] else [RecEvent.openDevice]) ++
        (if s.writer.isOpen then [] else [RecEvent.openWriterPool]) ++
        [RecEvent.addCallback] := by
  obtain ⟨dev, tgt, w⟩ := s
  obtain ⟨wio, wen, wq, wwr⟩ := w
  obtain ⟨dio, dcbs⟩ := d
  simp only at hd
  subst hd
  cases dio <;> cases wio <;>
    simp [start_recording, start_recording_events, DeviceState.openDev,
      DeviceState.addCallback, WriterState.openPool]

/-- Witness for C5 (amended): starting a recording on a fresh recorder opens
device then pool then registers the callback. -/
theorem start_recording_opens_device_then_pool_witness :
    ∃ s', start_recording "rec-\x7b\x7d.png" freshRec = some s' ∧
      s'.target = "rec-\x7b\x7d.png" ∧
      s'.device =
        some { isOpen := true, callbacks := [] ++ [recorderCb] } ∧
      s'.writer = { freshRec.writer with isOpen := true } ∧
      start_recording_events freshRec =
        (if ({ isOpen := false, callbacks := [] } : DeviceState).isOpen
          then [] else [RecEvent.openDevice]) ++
        (if freshRec.writer.isOpen then [] else [RecEvent.openWriterPool]) ++
        [RecEvent.addCallback] :=
  start_recording_opens_device_then_pool "rec-\x7b\x7d.png" freshRec
    { isOpen := false, callbacks := [] } rfl

/-- When the pool is open and writes are enabled, one callback invocation
appends exactly the jobs the success flag dictates. -/
theorem callbackWith_queue {Frame : Type} (custom : String → Frame → Frame)
    (now : String) (rval : Bool) (frame : Frame) (s : RecState Frame)
    (ho : s.writer.isOpen = true) (he : s.writer.writeEnabled = true) :
    (callbackWith custom now rval frame s).writer.queue =
      s.writer.queue ++
        (if rval then [(formatTemplate s.target now, custom now frame)]
         else []) := by
  cases rval <;> simp [callbackWith, WriterState.writeImage, ho, he]

/-- C6: while the pool is open and writes are enabled, delivering any
sequence of frames through the internal callback appends exactly one write
job per `success=true` frame to the pool's queue — none dropped, none
duplicated — in delivery order. -/
theorem recording_forwards_frames_in_order {Frame : Type}
    (custom : String → Frame → Frame) (evs : List (String × Bool × Frame))
    (s : RecState Frame) (ho : s.writer.isOpen = true)
    (he : s.writer.writeEnabled = true) :
    (deliverEvents custom 1 evs s).writer.queue =
      s.writer.queue ++
        (evs.filter (fun ev => ev.2.1)).map
          (fun ev => (formatTemplate s.target ev.1, custom ev.1 ev.2.2)) := by
  induction evs generalizing s with
  | nil => simp [deliverEvents]
  | cons ev evs ih =>
      have h1 : deliverEvents custom 1 (ev :: evs) s =
          deliverEvents custom 1 evs
            (callbackWith custom ev.1 ev.2.1 ev.2.2 s) := by
        unfold deliverEvents deliverEvent
        simp
      rw [h1,
        ih _ (by rw [callbackWith_isOpen]; exact ho)
          (by rw [callbackWith_writeEnabled]; exact he),
        callbackWith_queue custom ev.1 ev.2.1 ev.2.2 s ho he,
        callbackWith_target]
      cases hr : ev.2.1 <;> simp [List.filter_cons, hr, List.append_assoc]

/-- Witness for C6: with the pool open and writes enabled, three delivered
frames of which two succeed yield exactly the two corresponding jobs, in
order. -/
theorem recording_forwards_frames_in_order_witness :
    openRec.writer.isOpen = true ∧
    openRec.writer.writeEnabled = true ∧
    (deliverEvents custom_callback 1
        [("t1", true, (1 : Nat)), ("t2", false, 2), ("t3", true, 3)]
        openRec).writer.queue =
      openRec.writer.queue ++
        (([("t1", true, (1 : Nat)), ("t2", false, 2),
            ("t3", true, 3)]).filter (fun ev => ev.2.1)).map
          (fun ev =>
            (formatTemplate openRec.target ev.1, custom_callback ev.1 ev.2.2)) :=
  ⟨rfl, rfl,
    recording_forwards_frames_in_order custom_callback
      [("t1", true, (1 : Nat)), ("t2", false, 2), ("t3", true, 3)]
      openRec rfl rfl⟩

end NicoVision
